import Mathlib

/-!
Shallow embedding of the Sunny Broccoli Volley simulation
(`src/components/GameCanvas.tsx`, `src/services/geminiService.ts`,
`src/types.ts` / `src/App.tsx`) and proofs about the claims of its
natural-language specification.

Numbers are embedded as real numbers; `Math.sqrt` becomes `Real.sqrt`.
The per-tick `update` callback is decomposed into the stages the source
performs in order: player input, CPU AI, body physics (integration plus
floor/wall/net clamps), ball physics (integration, wall/ceiling bounce,
net collision), the two body-ball collision calls, and the scoring block.
-/

set_option maxHeartbeats 1000000

noncomputable section

namespace Volleyball

/-- 2D vector, `interface Vector { x, y }` from `src/types.ts`. -/
structure Vec2 where
  x : ℝ
  y : ℝ

/-- `interface Entity { pos, vel, radius, color, onGround }` from `src/types.ts`. -/
structure Entity where
  pos : Vec2
  vel : Vec2
  radius : ℝ
  color : String
  onGround : Bool

/-- `enum GameState` from `src/types.ts`. -/
inductive GameState where
  | MENU
  | PLAYING
  | POINT_SCORED
  | GAME_OVER
deriving DecidableEq

/-- `interface GameScore { player, cpu }` from `src/types.ts`. -/
structure GameScore where
  player : ℕ
  cpu : ℕ

/-- The two sides that can serve: argument of `resetPositions` in `GameCanvas.tsx`. -/
inductive Side where
  | player
  | cpu
deriving DecidableEq

/-- The sampled keyboard state: left/right/jump held flags
(`ArrowLeft || KeyA`, `ArrowRight || KeyD`, `ArrowUp || KeyW`). -/
structure Keys where
  left : Bool
  right : Bool
  up : Bool

/-- The full mutable simulation state: `playerRef`, `cpuRef`, `ballRef`,
`scoreRef` and the current `gameState` prop of `GameCanvas`. -/
structure World where
  gameState : GameState
  player : Entity
  cpu : Entity
  ball : Entity
  score : GameScore

-- Physics constants, `GameCanvas.tsx` lines 11-21.

def GRAVITY : ℝ := 0.5

def JUMP_FORCE : ℝ := -12

def MOVE_SPEED : ℝ := 6

def CANVAS_WIDTH : ℝ := 800

def CANVAS_HEIGHT : ℝ := 400

def NET_HEIGHT : ℝ := 100

def NET_X : ℝ := CANVAS_WIDTH / 2

def PLAYER_RADIUS : ℝ := 40

def BALL_RADIUS : ℝ := 12

def BOUNCE : ℝ := 0.7

/-- Serve toss position: `server === 'player' ? { x: 200, y: 250 } : { x: 600, y: 250 }`
(`GameCanvas.tsx` line 45). -/
def servePos (server : Side) : Vec2 :=
  if server = Side.player then ⟨200, 250⟩ else ⟨600, 250⟩

/-- `resetPositions(server)` (`GameCanvas.tsx` lines 35-47): both bodies return to
their home spots on the ground, the ball is tossed up on the server's side. -/
def resetPositions (server : Side) (w : World) : World :=
  { w with
    player := { w.player with pos := ⟨200, CANVAS_HEIGHT⟩, vel := ⟨0, 0⟩, onGround := true },
    cpu := { w.cpu with pos := ⟨600, CANVAS_HEIGHT⟩, vel := ⟨0, 0⟩, onGround := true },
    ball := { w.ball with pos := servePos server, vel := ⟨0, -9⟩ } }

/-- Player input handling (`GameCanvas.tsx` lines 98-106): horizontal velocity is set
from the held keys, jumping requires `onGround`. -/
def playerMove (k : Keys) (p : Entity) : Entity :=
  let p1 :=
    if k.left then { p with vel := ⟨-MOVE_SPEED, p.vel.y⟩ }
    else if k.right then { p with vel := ⟨MOVE_SPEED, p.vel.y⟩ }
    else { p with vel := ⟨0, p.vel.y⟩ }
  if k.up && p1.onGround then { p1 with vel := ⟨p1.vel.x, JUMP_FORCE⟩, onGround := false }
  else p1

/-- CPU target x (`GameCanvas.tsx` lines 112-120): home position 650 unless the ball
is near or past the net, in which case aim slightly behind the ball. -/
def cpuTargetX (ballX : ℝ) : ℝ :=
  if ballX > NET_X - 50 then ballX + 20 else 650

/-- CPU horizontal intent (`GameCanvas.tsx` lines 122-128): move at 0.85 of
`MOVE_SPEED` toward the target when outside the 5-unit deadband. -/
def cpuMoveVelX (ballX cpuX : ℝ) : ℝ :=
  let diff := cpuTargetX ballX - cpuX
  if |diff| > 5 then (if diff > 0 then MOVE_SPEED * 0.85 else -(MOVE_SPEED * 0.85)) else 0

/-- CPU jump decision (`GameCanvas.tsx` lines 130-140): jump only if the ball is past
the net, horizontally close, vertically in band, and the CPU is grounded. -/
def cpuJumpDecision (ballPos : Vec2) (cpuX : ℝ) (onGround : Bool) : Bool :=
  if ballPos.x > NET_X ∧ |ballPos.x - cpuX| < 50 ∧ ballPos.y > 200 ∧ ballPos.y < 350 ∧
      onGround = true then
    true
  else false

/-- The CPU AI block applied to the world (`GameCanvas.tsx` lines 108-140). -/
def cpuAIStep (w : World) : World :=
  let c := w.cpu
  let c1 := { c with vel := ⟨cpuMoveVelX w.ball.pos.x c.pos.x, c.vel.y⟩ }
  if cpuJumpDecision w.ball.pos c1.pos.x c1.onGround then
    { w with cpu := { c1 with vel := ⟨c1.vel.x, JUMP_FORCE⟩, onGround := false } }
  else { w with cpu := c1 }

/-- Body integration (`GameCanvas.tsx` lines 145-147): gravity on vertical velocity,
then explicit Euler position update. -/
def integrateBody (p : Entity) : Entity :=
  let vy := p.vel.y + GRAVITY
  { p with vel := ⟨p.vel.x, vy⟩, pos := ⟨p.pos.x + p.vel.x, p.pos.y + vy⟩ }

/-- Body floor collision (`GameCanvas.tsx` lines 149-154). -/
def floorClamp (p : Entity) : Entity :=
  if p.pos.y > CANVAS_HEIGHT then
    { p with pos := ⟨p.pos.x, CANVAS_HEIGHT⟩, vel := ⟨p.vel.x, 0⟩, onGround := true }
  else p

/-- Body wall collision (`GameCanvas.tsx` lines 156-158). -/
def wallClamp (p : Entity) : Entity :=
  let p1 := if p.pos.x < p.radius then { p with pos := ⟨p.radius, p.pos.y⟩ } else p
  if p1.pos.x > CANVAS_WIDTH - p1.radius then
    { p1 with pos := ⟨CANVAS_WIDTH - p1.radius, p1.pos.y⟩ }
  else p1

/-- Net barrier for the left body (`GameCanvas.tsx` line 164). -/
def netClampPlayer (p : Entity) : Entity :=
  if p.pos.x > NET_X - p.radius then { p with pos := ⟨NET_X - p.radius, p.pos.y⟩ } else p

/-- Net barrier for the right body (`GameCanvas.tsx` line 165). -/
def netClampCpu (p : Entity) : Entity :=
  if p.pos.x < NET_X + p.radius then { p with pos := ⟨NET_X + p.radius, p.pos.y⟩ } else p

/-- One body's physics pass (`GameCanvas.tsx` lines 144-166): integrate, then the
floor, wall and per-side net clamps, in source order. -/
def bodyPhysics (isPlayer : Bool) (p : Entity) : Entity :=
  let p1 := wallClamp (floorClamp (integrateBody p))
  if isPlayer then netClampPlayer p1 else netClampCpu p1

/-- The `[player, cpu].forEach` physics pass applied to the world. -/
def bodiesStage (w : World) : World :=
  { w with player := bodyPhysics true w.player, cpu := bodyPhysics false w.cpu }

/-- Ball integration (`GameCanvas.tsx` lines 168-175): 0.8-scaled gravity, 0.995
air-resistance damping on both axes, then position update. -/
def integrateBall (b : Entity) : Entity :=
  let vy1 := b.vel.y + GRAVITY * 0.8
  let vx := b.vel.x * 0.995
  let vy := vy1 * 0.995
  { b with vel := ⟨vx, vy⟩, pos := ⟨b.pos.x + vx, b.pos.y + vy⟩ }

/-- Ball wall and ceiling bounce (`GameCanvas.tsx` lines 177-190). -/
def ballWallBounce (b : Entity) : Entity :=
  let b1 :=
    if b.pos.x < b.radius then
      { b with pos := ⟨b.radius, b.pos.y⟩, vel := ⟨b.vel.x * -BOUNCE, b.vel.y⟩ }
    else b
  let b2 :=
    if b1.pos.x > CANVAS_WIDTH - b1.radius then
      { b1 with pos := ⟨CANVAS_WIDTH - b1.radius, b1.pos.y⟩, vel := ⟨b1.vel.x * -BOUNCE, b1.vel.y⟩ }
    else b1
  if b2.pos.y < b2.radius then
    { b2 with pos := ⟨b2.pos.x, b2.radius⟩, vel := ⟨b2.vel.x, b2.vel.y * -BOUNCE⟩ }
  else b2

/-- Top of the net: `CANVAS_HEIGHT - NET_HEIGHT`. -/
def netTopY : ℝ := CANVAS_HEIGHT - NET_HEIGHT

/-- Ball vs net (`GameCanvas.tsx` lines 192-223): circular collision against the net
top (virtual post of radius 5), else planar bounce against the net side. -/
def ballNetCollision (b : Entity) : Entity :=
  let distToNetTop := Real.sqrt ((b.pos.x - NET_X) ^ 2 + (b.pos.y - netTopY) ^ 2)
  if distToNetTop < b.radius + 5 then
    let dx := b.pos.x - NET_X
    let dy := b.pos.y - netTopY
    let len := Real.sqrt (dx * dx + dy * dy)
    let nx := dx / len
    let ny := dy / len
    let dot := b.vel.x * nx + b.vel.y * ny
    let pen := (b.radius + 5) - distToNetTop
    { b with
      vel := ⟨(b.vel.x - 2 * dot * nx) * BOUNCE, (b.vel.y - 2 * dot * ny) * BOUNCE⟩,
      pos := ⟨b.pos.x + nx * pen, b.pos.y + ny * pen⟩ }
  else if b.pos.y > netTopY then
    if |b.pos.x - NET_X| < b.radius + 5 then
      { b with
        vel := ⟨b.vel.x * -BOUNCE, b.vel.y⟩,
        pos := ⟨if b.pos.x < NET_X then NET_X - b.radius - 5 else NET_X + b.radius + 5, b.pos.y⟩ }
    else b
  else b

/-- The whole ball physics pass applied to the world. -/
def ballStage (w : World) : World :=
  { w with ball := ballNetCollision (ballWallBounce (integrateBall w.ball)) }

/-- `checkCircleCollision(c1, c2)` (`GameCanvas.tsx` lines 62-88): `c1` is the body,
`c2` the ball; only the ball (`c2`) is mutated. Returns the updated ball. -/
def checkCircleCollision (c1 c2 : Entity) : Entity :=
  let dx := c1.pos.x - c2.pos.x
  let dy := c1.pos.y - c2.pos.y
  let dist := Real.sqrt (dx * dx + dy * dy)
  if dist < c1.radius + c2.radius then
    let nx := dx / dist
    let ny := dy / dist
    let speed := Real.sqrt (c2.vel.x * c2.vel.x + c2.vel.y * c2.vel.y)
    let force := max 14 (speed * 1.1)
    let overlap := (c1.radius + c2.radius) - dist
    { c2 with
      vel := ⟨-nx * force + c1.vel.x * 0.5, -ny * force + c1.vel.y * 0.5 - 4⟩,
      pos := ⟨c2.pos.x - nx * overlap, c2.pos.y - ny * overlap⟩ }
  else c2

/-- The two body-ball collision calls (`GameCanvas.tsx` lines 225-227), player first. -/
def collideStage (w : World) : World :=
  { w with ball := checkCircleCollision w.cpu (checkCircleCollision w.player w.ball) }

/-- Distance between centers as computed by `checkCircleCollision`
(`Math.sqrt(dx*dx + dy*dy)`). -/
def centerDist (c1 c2 : Entity) : ℝ :=
  Real.sqrt ((c1.pos.x - c2.pos.x) * (c1.pos.x - c2.pos.x) +
    (c1.pos.y - c2.pos.y) * (c1.pos.y - c2.pos.y))

/-- The guard of the body-ball collision branch: `dist < c1.radius + c2.radius`. -/
def collisionGuard (c1 c2 : Entity) : Prop :=
  centerDist c1 c2 < c1.radius + c2.radius

/-- The outgoing collision unit normal, from the body's center toward the ball's
center (the direction `(-nx, -ny)` along which the code propels the ball). -/
def outwardNormal (c1 c2 : Entity) : Vec2 :=
  ⟨(c2.pos.x - c1.pos.x) / centerDist c1 c2, (c2.pos.y - c1.pos.y) / centerDist c1 c2⟩

/-- Euclidean dot product on `Vec2`. -/
def dotV (u v : Vec2) : ℝ := u.x * v.x + u.y * v.y

/-- The scoring block (`GameCanvas.tsx` lines 229-248): when the ball reaches the
floor, the side opposite the landing half scores, positions reset with the landing
(losing) side as `server`, and the phase becomes `POINT_SCORED`. -/
def scoringStep (w : World) : World :=
  if w.ball.pos.y ≥ CANVAS_HEIGHT - w.ball.radius then
    if w.ball.pos.x < NET_X then
      { resetPositions Side.player
          { w with score := { w.score with cpu := w.score.cpu + 1 } } with
        gameState := GameState.POINT_SCORED }
    else
      { resetPositions Side.cpu
          { w with score := { w.score with player := w.score.player + 1 } } with
        gameState := GameState.POINT_SCORED }
  else w

/-- Which side `resetPositions` is called with when the ball grounds (the branch
structure of `GameCanvas.tsx` lines 233-245); `none` when no point is scored. -/
def scoredServer (w : World) : Option Side :=
  if w.ball.pos.y ≥ CANVAS_HEIGHT - w.ball.radius then
    if w.ball.pos.x < NET_X then some Side.player else some Side.cpu
  else none

/-- Which side wins the point when the ball grounds (the side whose score the code
increments); `none` when no point is scored. -/
def pointWinner (w : World) : Option Side :=
  if w.ball.pos.y ≥ CANVAS_HEIGHT - w.ball.radius then
    if w.ball.pos.x < NET_X then some Side.cpu else some Side.player
  else none

/-- Everything the PLAYING tick does before the scoring block, in source order. -/
def afterCollisions (k : Keys) (w : World) : World :=
  collideStage (ballStage (bodiesStage (cpuAIStep ({ w with player := playerMove k w.player }))))

/-- The per-tick `update` callback (`GameCanvas.tsx` lines 91-250): a no-op unless
the phase is PLAYING, otherwise the full pipeline ending with the scoring block. -/
def update (k : Keys) (w : World) : World :=
  if w.gameState = GameState.PLAYING then scoringStep (afterCollisions k w) else w

/-- Initial state of the refs (`GameCanvas.tsx` lines 28-32) with the `MENU` phase
`App.tsx` starts in. -/
def initialWorld : World :=
  { gameState := GameState.MENU,
    player := { pos := ⟨200, 400⟩, vel := ⟨0, 0⟩, radius := PLAYER_RADIUS,
                color := "#ef4444", onGround := true },
    cpu := { pos := ⟨600, 400⟩, vel := ⟨0, 0⟩, radius := PLAYER_RADIUS,
             color := "#3b82f6", onGround := true },
    ball := { pos := ⟨200, 200⟩, vel := ⟨0, 0⟩, radius := BALL_RADIUS,
              color := "#ffffff", onGround := false },
    score := ⟨0, 0⟩ }

/-- Commentary mood enum (`src/types.ts`). -/
inductive Mood where
  | excited
  | sarcastic
  | neutral
  | encouraging
deriving DecidableEq

/-- `interface CommentaryResponse { text, mood }` (`src/types.ts`). -/
structure CommentaryResponse where
  text : String
  mood : Mood
deriving DecidableEq

/-- The fallback returned when the client was never initialized
(`geminiService.ts` lines 19-21). -/
def unavailableFallback : CommentaryResponse :=
  ⟨"AI Commentary unavailable (Check API Key).", Mood.neutral⟩

/-- The fallback returned from the catch block when the call or parsing fails
(`geminiService.ts` lines 56-62). -/
def offlineFallback : CommentaryResponse :=
  ⟨"Was für ein Spiel! (AI Offline)", Mood.neutral⟩

/-- Outcome of the gateway call attempt inside the try block: either a parsed
response, or any thrown failure (transport error, absent text, malformed JSON). -/
inductive GatewayOutcome where
  | ok (r : CommentaryResponse)
  | failed

/-- `generateCommentary` (`geminiService.ts` lines 14-63), abstracted over whether
the client initialized (`ai !== null`) and the outcome of the call attempt. -/
def generateCommentary (aiInitialized : Bool) (outcome : GatewayOutcome) : CommentaryResponse :=
  if aiInitialized = false then unavailableFallback
  else
    match outcome with
    | GatewayOutcome.ok r => r
    | GatewayOutcome.failed => offlineFallback

-- Concrete inputs used by the claim theorems.

/-- No key held. -/
def k0 : Keys := ⟨false, false, false⟩

/-- A PLAYING state whose ball sits at `(300, 399)` (claim C1's scenario). -/
def w1c : World :=
  { initialWorld with
    gameState := GameState.PLAYING,
    ball := { initialWorld.ball with pos := ⟨300, 399⟩ } }

/-- A PLAYING state whose ball has grounded at `(300, 399)` on the left half. -/
def w3bug : World :=
  { initialWorld with
    gameState := GameState.PLAYING,
    ball := { initialWorld.ball with pos := ⟨300, 399⟩ } }

/-- A player moving right at speed 6. -/
def p2 : Entity :=
  { pos := ⟨400, 300⟩, vel := ⟨6, 0⟩, radius := PLAYER_RADIUS, color := "#ef4444",
    onGround := false }

/-- A stationary ball 47 units to the left of `p2` (overlap 5, opponent-to-ball
normal `(-1, 0)`). -/
def b2 : Entity :=
  { pos := ⟨353, 300⟩, vel := ⟨0, 0⟩, radius := BALL_RADIUS, color := "#ffffff",
    onGround := false }

/-- A stationary ball 47 units to the right of `p2` (overlap 5, opponent-to-ball
normal `(1, 0)`). -/
def b2r : Entity :=
  { pos := ⟨447, 300⟩, vel := ⟨0, 0⟩, radius := BALL_RADIUS, color := "#ffffff",
    onGround := false }

/-- A player moving left fast (velocity `(-40, 0)`). -/
def p4 : Entity :=
  { pos := ⟨400, 300⟩, vel := ⟨-40, 0⟩, radius := PLAYER_RADIUS, color := "#ef4444",
    onGround := false }

/-- A stationary ball 47 units to the right of `p4` / `p4w`. -/
def b4 : Entity :=
  { pos := ⟨447, 300⟩, vel := ⟨0, 0⟩, radius := BALL_RADIUS, color := "#ffffff",
    onGround := false }

/-- A player moving right at speed 6 (witness input for the amended C4). -/
def p4w : Entity :=
  { pos := ⟨400, 300⟩, vel := ⟨6, 0⟩, radius := PLAYER_RADIUS, color := "#ef4444",
    onGround := false }

/-- A body at `(300, 300)`. -/
def p6 : Entity :=
  { pos := ⟨300, 300⟩, vel := ⟨0, 0⟩, radius := PLAYER_RADIUS, color := "#ef4444",
    onGround := false }

/-- A ball whose center coincides with `p6`'s center. -/
def b6 : Entity :=
  { pos := ⟨300, 300⟩, vel := ⟨0, 0⟩, radius := BALL_RADIUS, color := "#ffffff",
    onGround := false }

/-- First snapshot world for the statelessness claim. -/
def w9a : World :=
  { gameState := GameState.PLAYING,
    player := { pos := ⟨100, 400⟩, vel := ⟨6, 0⟩, radius := PLAYER_RADIUS,
                color := "#ef4444", onGround := true },
    cpu := { pos := ⟨600, 400⟩, vel := ⟨0, 0⟩, radius := PLAYER_RADIUS,
             color := "#3b82f6", onGround := true },
    ball := { pos := ⟨500, 250⟩, vel := ⟨3, 1⟩, radius := BALL_RADIUS,
              color := "#ffffff", onGround := false },
    score := ⟨0, 0⟩ }

/-- Second snapshot world: same ball position, cpu position and cpu grounded flag
as `w9a`, but different phase, score, player state and velocities. -/
def w9b : World :=
  { gameState := GameState.MENU,
    player := { pos := ⟨333, 200⟩, vel := ⟨-6, 2⟩, radius := PLAYER_RADIUS,
                color := "#ef4444", onGround := false },
    cpu := { pos := ⟨600, 400⟩, vel := ⟨5, -7⟩, radius := PLAYER_RADIUS,
             color := "#3b82f6", onGround := true },
    ball := { pos := ⟨500, 250⟩, vel := ⟨-9, 4⟩, radius := BALL_RADIUS,
              color := "#ffffff", onGround := false },
    score := ⟨4, 9⟩ }

/-- The player body of the C5 counterexample world: grounded at the left wall. -/
def plE : Entity :=
  { pos := ⟨40, 400⟩, vel := ⟨0, 0⟩, radius := PLAYER_RADIUS, color := "#ef4444",
    onGround := true }

/-- The cpu body of the C5 counterexample world: grounded at its home spot. -/
def cpE : Entity :=
  { pos := ⟨650, 400⟩, vel := ⟨0, 0⟩, radius := PLAYER_RADIUS, color := "#3b82f6",
    onGround := true }

/-- The ball of the C5 counterexample world, resting just above-left of the player. -/
def blE : Entity :=
  { pos := ⟨12, 378.602⟩, vel := ⟨0, 0⟩, radius := BALL_RADIUS, color := "#ffffff",
    onGround := false }

/-- The C5 counterexample world: a PLAYING state about to push the ball out of
bounds through the player-ball separation. -/
def w5 : World :=
  { gameState := GameState.PLAYING, player := plE, cpu := cpE, ball := blE,
    score := ⟨0, 0⟩ }

/-- The ball after the C5 tick's ball-physics stage. -/
def ballA : Entity :=
  { pos := ⟨12, 379⟩, vel := ⟨0, 0.398⟩, radius := BALL_RADIUS, color := "#ffffff",
    onGround := false }

/-- The ball after the C5 tick's player-ball collision push-out: its x position
`-1.6` is outside `[radius, courtWidth - radius]`. -/
def ballB : Entity :=
  { pos := ⟨-1.6, 368.8⟩, vel := ⟨-11.2, -12.4⟩, radius := BALL_RADIUS,
    color := "#ffffff", onGround := false }

-- Helper lemmas.

/-- Evaluate a square root at a perfect square. -/
theorem sqrt_eval {a b : ℝ} (hb : 0 ≤ b) (h : b * b = a) : Real.sqrt a = b := by
  rw [← h]; exact Real.sqrt_mul_self hb

/-- Lower-bound a square root. -/
theorem le_sqrt_eval {a b : ℝ} (hb : 0 ≤ b) (h : b * b ≤ a) : b ≤ Real.sqrt a := by
  calc b = Real.sqrt (b * b) := (Real.sqrt_mul_self hb).symm
    _ ≤ Real.sqrt a := Real.sqrt_le_sqrt h

/-- `checkCircleCollision` on a hit, written with `centerDist`. -/
theorem checkCircleCollision_eq (c1 c2 : Entity) (hcol : collisionGuard c1 c2) :
    checkCircleCollision c1 c2 =
      { c2 with
        vel := ⟨-((c1.pos.x - c2.pos.x) / centerDist c1 c2) *
                  max 14 (Real.sqrt (c2.vel.x * c2.vel.x + c2.vel.y * c2.vel.y) * 1.1) +
                c1.vel.x * 0.5,
               -((c1.pos.y - c2.pos.y) / centerDist c1 c2) *
                  max 14 (Real.sqrt (c2.vel.x * c2.vel.x + c2.vel.y * c2.vel.y) * 1.1) +
                c1.vel.y * 0.5 - 4⟩,
        pos := ⟨c2.pos.x - ((c1.pos.x - c2.pos.x) / centerDist c1 c2) *
                  (c1.radius + c2.radius - centerDist c1 c2),
                c2.pos.y - ((c1.pos.y - c2.pos.y) / centerDist c1 c2) *
                  (c1.radius + c2.radius - centerDist c1 c2)⟩ } := by
  unfold collisionGuard centerDist at hcol
  unfold checkCircleCollision centerDist
  rw [if_pos hcol]

/-- `checkCircleCollision` on a miss is the identity on the ball. -/
theorem checkCircleCollision_miss (c1 c2 : Entity) (h : ¬ collisionGuard c1 c2) :
    checkCircleCollision c1 c2 = c2 := by
  unfold collisionGuard centerDist at h
  unfold checkCircleCollision
  rw [if_neg h]

/-- The CPU step's horizontal-velocity output is `cpuMoveVelX` of the snapshot. -/
theorem cpuAIStep_velx (w : World) :
    (cpuAIStep w).cpu.vel.x = cpuMoveVelX w.ball.pos.x w.cpu.pos.x := by
  unfold cpuAIStep
  dsimp only
  split <;> rfl

-- Claim theorems.

/-- Claim C10: for every game phase other than PLAYING, one call of the per-tick
update function changes nothing: the whole world (entity positions, velocities,
onGround flags, both scores and the phase) is returned unchanged. -/
theorem C10_nonplaying_update_noop (k : Keys) (w : World)
    (h : w.gameState ≠ GameState.PLAYING) : update k w = w := by
  unfold update
  rw [if_neg h]

/-- Witness for C10 at the initial MENU world. -/
theorem C10_nonplaying_update_noop_witness :
    initialWorld.gameState ≠ GameState.PLAYING ∧ update k0 initialWorld = initialWorld :=
  ⟨by decide, C10_nonplaying_update_noop k0 initialWorld (by decide)⟩

/-- Claim C8: the per-tick integrator adds the gravity constant 0.5 to a body's
vertical velocity then adds velocity to position with no damping, while the ball
gets vertical velocity increased by 0.8 times gravity, both velocity components
multiplied by 0.995, then velocity added to position. -/
theorem C8_integrator_formulas (p b : Entity) :
    (integrateBody p).vel.x = p.vel.x ∧
    (integrateBody p).vel.y = p.vel.y + GRAVITY ∧
    (integrateBody p).pos.x = p.pos.x + p.vel.x ∧
    (integrateBody p).pos.y = p.pos.y + (p.vel.y + GRAVITY) ∧
    GRAVITY = 0.5 ∧
    (integrateBall b).vel.x = b.vel.x * 0.995 ∧
    (integrateBall b).vel.y = (b.vel.y + GRAVITY * 0.8) * 0.995 ∧
    (integrateBall b).pos.x = b.pos.x + b.vel.x * 0.995 ∧
    (integrateBall b).pos.y = b.pos.y + (b.vel.y + GRAVITY * 0.8) * 0.995 :=
  ⟨rfl, rfl, rfl, rfl, rfl, rfl, rfl, rfl, rfl⟩

/-- Claim C7 counterexample: the two gateway failure kinds do NOT share a single
fixed placeholder text: the missing-credentials fallback text differs from the
call-failure fallback text (both moods are neutral). -/
theorem C7_two_distinct_fallback_texts :
    (generateCommentary false GatewayOutcome.failed).mood = Mood.neutral ∧
    (generateCommentary true GatewayOutcome.failed).mood = Mood.neutral ∧
    (generateCommentary false GatewayOutcome.failed).text ≠
      (generateCommentary true GatewayOutcome.failed).text :=
  ⟨rfl, rfl, by decide⟩

/-- Amended C7: on every failure `generateCommentary` returns mood neutral and a
fixed deterministic text, but there are two such texts, one per failure kind:
the missing-credentials fallback and the call-failure fallback. -/
theorem C7_amended_two_fallbacks (outcome : GatewayOutcome) :
    generateCommentary false outcome = unavailableFallback ∧
    unavailableFallback.mood = Mood.neutral ∧
    generateCommentary true GatewayOutcome.failed = offlineFallback ∧
    offlineFallback.mood = Mood.neutral :=
  ⟨rfl, rfl, rfl, rfl⟩

/-- Claim C9: the opponent controller is deterministic and stateless: two worlds
agreeing on the snapshot (ball position, cpu position, cpu onGround flag) produce
the same horizontal-velocity intent and the same jump decision, whatever the rest
of the state (phase, score, player, velocities) is. -/
theorem C9_cpu_ai_stateless (w1 w2 : World)
    (hb : w1.ball.pos = w2.ball.pos) (hc : w1.cpu.pos = w2.cpu.pos)
    (hg : w1.cpu.onGround = w2.cpu.onGround) :
    (cpuAIStep w1).cpu.vel.x = (cpuAIStep w2).cpu.vel.x ∧
    cpuJumpDecision w1.ball.pos w1.cpu.pos.x w1.cpu.onGround =
      cpuJumpDecision w2.ball.pos w2.cpu.pos.x w2.cpu.onGround := by
  rw [cpuAIStep_velx, cpuAIStep_velx, hb, hc, hg]
  exact ⟨rfl, rfl⟩

/-- Witness for C9: `w9a` and `w9b` share only the snapshot. -/
theorem C9_cpu_ai_stateless_witness :
    w9a.ball.pos = w9b.ball.pos ∧ w9a.cpu.pos = w9b.cpu.pos ∧
    w9a.cpu.onGround = w9b.cpu.onGround ∧
    ((cpuAIStep w9a).cpu.vel.x = (cpuAIStep w9b).cpu.vel.x ∧
     cpuJumpDecision w9a.ball.pos w9a.cpu.pos.x w9a.cpu.onGround =
       cpuJumpDecision w9b.ball.pos w9b.cpu.pos.x w9b.cpu.onGround) :=
  ⟨rfl, rfl, rfl, C9_cpu_ai_stateless w9a w9b rfl rfl rfl⟩

/-- Claim C1: on a PLAYING tick whose ball reaches the scoring check at
`(300, 399)` (court floor 400, ball radius 12, net at x = 400), floor contact is
detected on the left half: the cpu score increments by exactly 1, the next serve
is assigned to the left-side player, and the ball is repositioned to `(200, 250)`
with velocity `(0, -9)`. -/
theorem C1_left_floor_contact_scoring (w : World)
    (hx : w.ball.pos.x = 300) (hy : w.ball.pos.y = 399) (hr : w.ball.radius = 12) :
    (scoringStep w).score.cpu = w.score.cpu + 1 ∧
    (scoringStep w).score.player = w.score.player ∧
    scoredServer w = some Side.player ∧
    (scoringStep w).ball.pos = servePos Side.player ∧
    (scoringStep w).ball.pos = ⟨200, 250⟩ ∧
    (scoringStep w).ball.vel = ⟨0, -9⟩ ∧
    (scoringStep w).gameState = GameState.POINT_SCORED := by
  have hcond : w.ball.pos.y ≥ CANVAS_HEIGHT - w.ball.radius := by
    rw [hy, hr]; norm_num [CANVAS_HEIGHT]
  have hleft : w.ball.pos.x < NET_X := by
    rw [hx]; norm_num [NET_X, CANVAS_WIDTH]
  refine ⟨?_, ?_, ?_, ?_, ?_, ?_, ?_⟩ <;>
    first
      | (unfold scoredServer; rw [if_pos hcond, if_pos hleft])
      | (unfold scoringStep; rw [if_pos hcond, if_pos hleft]; try rfl)

/-- Witness for C1 at the concrete world `w1c`. -/
theorem C1_left_floor_contact_scoring_witness :
    w1c.ball.pos.x = 300 ∧ w1c.ball.pos.y = 399 ∧ w1c.ball.radius = 12 ∧
    ((scoringStep w1c).score.cpu = w1c.score.cpu + 1 ∧
     (scoringStep w1c).score.player = w1c.score.player ∧
     scoredServer w1c = some Side.player ∧
     (scoringStep w1c).ball.pos = servePos Side.player ∧
     (scoringStep w1c).ball.pos = ⟨200, 250⟩ ∧
     (scoringStep w1c).ball.vel = ⟨0, -9⟩ ∧
     (scoringStep w1c).gameState = GameState.POINT_SCORED) :=
  ⟨rfl, rfl, rfl, C1_left_floor_contact_scoring w1c rfl rfl rfl⟩

/-- Claim C3 is contradicted by the code (code bug): when the ball grounds at
`(300, 399)` on the left half, the cpu wins the point, yet `resetPositions` is
called with the player — the serve toss lands at `(200, 250)` on the loser's
side, although the code's own comment reads `// Winner serves`. -/
theorem C3_winner_does_not_serve :
    pointWinner w3bug = some Side.cpu ∧
    scoredServer w3bug = some Side.player ∧
    (scoringStep w3bug).score.cpu = w3bug.score.cpu + 1 ∧
    (scoringStep w3bug).ball.pos = servePos Side.player ∧
    servePos Side.player ≠ servePos Side.cpu := by
  have hcond : w3bug.ball.pos.y ≥ CANVAS_HEIGHT - w3bug.ball.radius := by
    norm_num [w3bug, initialWorld, CANVAS_HEIGHT, BALL_RADIUS]
  have hleft : w3bug.ball.pos.x < NET_X := by
    norm_num [w3bug, initialWorld, NET_X, CANVAS_WIDTH]
  refine ⟨?_, ?_, ?_, ?_, ?_⟩
  · unfold pointWinner; rw [if_pos hcond, if_pos hleft]
  · unfold scoredServer; rw [if_pos hcond, if_pos hleft]
  · unfold scoringStep; rw [if_pos hcond, if_pos hleft]; rfl
  · unfold scoringStep; rw [if_pos hcond, if_pos hleft]; rfl
  · intro h
    have h2 : (⟨200, 250⟩ : Vec2) = ⟨600, 250⟩ := by
      calc (⟨200, 250⟩ : Vec2) = servePos Side.player := rfl
        _ = servePos Side.cpu := h
        _ = ⟨600, 250⟩ := rfl
    have hx := congrArg Vec2.x h2
    norm_num at hx

/-- Claim C2 counterexample: with the opponent-to-ball unit normal `(-1, 0)` as
stated (stationary ball 47 units to the LEFT of the player, overlap 5, player
velocity `(6, 0)`), the collision routine produces ball x-velocity `-11`
(the pop force pushes the ball further left), not `17`. -/
theorem C2_normal_minus_one_gives_minus_eleven :
    outwardNormal p2 b2 = ⟨-1, 0⟩ ∧
    p2.radius + b2.radius - centerDist p2 b2 = 5 ∧
    (checkCircleCollision p2 b2).vel.x = -11 ∧
    (checkCircleCollision p2 b2).vel.x ≠ 17 := by
  have hd : centerDist p2 b2 = 47 := by
    unfold centerDist p2 b2
    rw [show (((400:ℝ) - 353) * ((400:ℝ) - 353) + ((300:ℝ) - 300) * ((300:ℝ) - 300))
        = 47 * 47 by norm_num]
    exact Real.sqrt_mul_self (by norm_num)
  have hcol : collisionGuard p2 b2 := by
    unfold collisionGuard
    rw [hd]; norm_num [p2, b2, PLAYER_RADIUS, BALL_RADIUS]
  have he := checkCircleCollision_eq p2 b2 hcol
  rw [hd] at he
  have hvx : (checkCircleCollision p2 b2).vel.x = -11 := by
    rw [he]
    show -(((400:ℝ) - 353) / 47) * max 14 (Real.sqrt ((0:ℝ) * 0 + 0 * 0) * 1.1) +
        6 * 0.5 = -11
    rw [show ((0:ℝ) * 0 + 0 * 0) = 0 by norm_num, Real.sqrt_zero]
    rw [show max (14:ℝ) (0 * 1.1) = 14 from max_eq_left (by norm_num)]
    norm_num
  refine ⟨?_, ?_, hvx, ?_⟩
  · unfold outwardNormal
    rw [hd]
    show (⟨((353:ℝ) - 400) / 47, ((300:ℝ) - 300) / 47⟩ : Vec2) = ⟨-1, 0⟩
    norm_num
  · rw [hd]; norm_num [p2, b2, PLAYER_RADIUS, BALL_RADIUS]
  · rw [hvx]; norm_num

/-- Amended C2: with the same player velocity `(6, 0)` and stationary ball but the
ball displaced along the opponent-to-ball unit normal `(+1, 0)` (overlap 5), the
resulting ball x-velocity is `14 * 1 + 6 * 0.5 = 17`; the minimum pop force 14
applies because the routine clamps on the BALL's speed (0 here), not the
player's. -/
theorem C2_amended_plus_normal_gives_seventeen :
    outwardNormal p2 b2r = ⟨1, 0⟩ ∧
    p2.radius + b2r.radius - centerDist p2 b2r = 5 ∧
    (checkCircleCollision p2 b2r).vel.x = 14 * 1 + 6 * 0.5 ∧
    (checkCircleCollision p2 b2r).vel.x = 17 := by
  have hd : centerDist p2 b2r = 47 := by
    unfold centerDist p2 b2r
    rw [show (((400:ℝ) - 447) * ((400:ℝ) - 447) + ((300:ℝ) - 300) * ((300:ℝ) - 300))
        = 47 * 47 by norm_num]
    exact Real.sqrt_mul_self (by norm_num)
  have hcol : collisionGuard p2 b2r := by
    unfold collisionGuard
    rw [hd]; norm_num [p2, b2r, PLAYER_RADIUS, BALL_RADIUS]
  have he := checkCircleCollision_eq p2 b2r hcol
  rw [hd] at he
  have hvx : (checkCircleCollision p2 b2r).vel.x = 17 := by
    rw [he]
    show -(((400:ℝ) - 447) / 47) * max 14 (Real.sqrt ((0:ℝ) * 0 + 0 * 0) * 1.1) +
        6 * 0.5 = 17
    rw [show ((0:ℝ) * 0 + 0 * 0) = 0 by norm_num, Real.sqrt_zero]
    rw [show max (14:ℝ) (0 * 1.1) = 14 from max_eq_left (by norm_num)]
    norm_num
  refine ⟨?_, ?_, ?_, hvx⟩
  · unfold outwardNormal
    rw [hd]
    show (⟨((447:ℝ) - 400) / 47, ((300:ℝ) - 300) / 47⟩ : Vec2) = ⟨1, 0⟩
    norm_num
  · rw [hd]; norm_num [p2, b2r, PLAYER_RADIUS, BALL_RADIUS]
  · rw [hvx]; norm_num

/-- Claim C6 counterexample: with coincident centers the collision branch IS
entered (distance 0 is below the radius sum) while the divisor used to normalize
the impact vector is exactly 0 — the source divides `dx` by a zero distance, so
there is no defensive fallback normal. -/
theorem C6_concentric_divides_by_zero :
    centerDist p6 b6 = 0 ∧ collisionGuard p6 b6 := by
  have hd : centerDist p6 b6 = 0 := by
    unfold centerDist p6 b6
    rw [show (((300:ℝ) - 300) * ((300:ℝ) - 300) + ((300:ℝ) - 300) * ((300:ℝ) - 300))
        = 0 by norm_num]
    exact Real.sqrt_zero
  refine ⟨hd, ?_⟩
  unfold collisionGuard
  rw [hd]; norm_num [p6, b6, PLAYER_RADIUS, BALL_RADIUS]

/-- Amended C6: the zero-distance degenerate case is NOT handled: for every pair
of entities with coincident centers and positive radius sum, the collision guard
holds and the normalization divisor is 0, so the normal computation divides by
zero (NaN in the JavaScript source); no fallback normal exists. -/
theorem C6_amended_no_fallback (c1 c2 : Entity) (hpos : c1.pos = c2.pos)
    (hr : 0 < c1.radius + c2.radius) :
    centerDist c1 c2 = 0 ∧ collisionGuard c1 c2 := by
  have hd : centerDist c1 c2 = 0 := by
    unfold centerDist
    rw [hpos]
    rw [show ((c2.pos.x - c2.pos.x) * (c2.pos.x - c2.pos.x) +
        (c2.pos.y - c2.pos.y) * (c2.pos.y - c2.pos.y)) = 0 by ring]
    exact Real.sqrt_zero
  refine ⟨hd, ?_⟩
  unfold collisionGuard
  rw [hd]; exact hr

/-- Witness for the amended C6 at the concentric pair `p6`, `b6`. -/
theorem C6_amended_no_fallback_witness :
    p6.pos = b6.pos ∧ (0:ℝ) < p6.radius + b6.radius ∧
    (centerDist p6 b6 = 0 ∧ collisionGuard p6 b6) :=
  ⟨rfl, by norm_num [p6, b6, PLAYER_RADIUS, BALL_RADIUS],
   C6_amended_no_fallback p6 b6 rfl (by norm_num [p6, b6, PLAYER_RADIUS, BALL_RADIUS])⟩

/-- Claim C4 counterexample: a genuine body-ball collision (distance 47 below the
radius sum 52, centers distinct) where the resulting ball velocity's component
along the outgoing normal is `-6 < 14`: the body's velocity `(-40, 0)` drags the
ball backward past the minimum pop force. -/
theorem C4_normal_component_below_floor :
    collisionGuard p4 b4 ∧
    centerDist p4 b4 ≠ 0 ∧
    dotV (outwardNormal p4 b4) (checkCircleCollision p4 b4).vel = -6 ∧
    ¬ (14 ≤ dotV (outwardNormal p4 b4) (checkCircleCollision p4 b4).vel) := by
  have hd : centerDist p4 b4 = 47 := by
    unfold centerDist p4 b4
    rw [show (((400:ℝ) - 447) * ((400:ℝ) - 447) + ((300:ℝ) - 300) * ((300:ℝ) - 300))
        = 47 * 47 by norm_num]
    exact Real.sqrt_mul_self (by norm_num)
  have hcol : collisionGuard p4 b4 := by
    unfold collisionGuard
    rw [hd]; norm_num [p4, b4, PLAYER_RADIUS, BALL_RADIUS]
  have he := checkCircleCollision_eq p4 b4 hcol
  rw [hd] at he
  have hdot : dotV (outwardNormal p4 b4) (checkCircleCollision p4 b4).vel = -6 := by
    rw [he]
    unfold dotV outwardNormal
    rw [hd]
    show ((447:ℝ) - 400) / 47 *
        (-(((400:ℝ) - 447) / 47) * max 14 (Real.sqrt ((0:ℝ) * 0 + 0 * 0) * 1.1) +
          -40 * 0.5) +
      ((300:ℝ) - 300) / 47 *
        (-(((300:ℝ) - 300) / 47) * max 14 (Real.sqrt ((0:ℝ) * 0 + 0 * 0) * 1.1) +
          0 * 0.5 - 4) = -6
    rw [show ((0:ℝ) * 0 + 0 * 0) = 0 by norm_num, Real.sqrt_zero]
    rw [show max (14:ℝ) (0 * 1.1) = 14 from max_eq_left (by norm_num)]
    norm_num
  refine ⟨hcol, ?_, hdot, ?_⟩
  · rw [hd]; norm_num
  · rw [hdot]; norm_num

/-- Amended C4: the energy floor holds for the pop-force part of the hit: the
resulting ball velocity decomposes as `normal * force + 0.5 * bodyVelocity +
(0, -4)` with `force = max 14 (1.1 * ballSpeed) ≥ 14`, so the component along the
outgoing normal of the velocity MINUS the body-velocity influence and the fixed
upward kick is exactly `force ≥ 14`; the full velocity's normal component can
drop below 14 once those terms are added. -/
theorem C4_amended_pop_force_floor (c1 c2 : Entity)
    (hcol : collisionGuard c1 c2) (h0 : centerDist c1 c2 ≠ 0) :
    14 ≤ max 14 (Real.sqrt (c2.vel.x * c2.vel.x + c2.vel.y * c2.vel.y) * 1.1) ∧
    (checkCircleCollision c1 c2).vel.x =
      (outwardNormal c1 c2).x *
        max 14 (Real.sqrt (c2.vel.x * c2.vel.x + c2.vel.y * c2.vel.y) * 1.1) +
      c1.vel.x * 0.5 ∧
    (checkCircleCollision c1 c2).vel.y =
      (outwardNormal c1 c2).y *
        max 14 (Real.sqrt (c2.vel.x * c2.vel.x + c2.vel.y * c2.vel.y) * 1.1) +
      c1.vel.y * 0.5 - 4 ∧
    dotV (outwardNormal c1 c2)
      ⟨(checkCircleCollision c1 c2).vel.x - c1.vel.x * 0.5,
       (checkCircleCollision c1 c2).vel.y - (c1.vel.y * 0.5 - 4)⟩ =
      max 14 (Real.sqrt (c2.vel.x * c2.vel.x + c2.vel.y * c2.vel.y) * 1.1) := by
  have hS0 : 0 ≤ (c1.pos.x - c2.pos.x) * (c1.pos.x - c2.pos.x) +
      (c1.pos.y - c2.pos.y) * (c1.pos.y - c2.pos.y) :=
    add_nonneg (mul_self_nonneg _) (mul_self_nonneg _)
  have hdd : centerDist c1 c2 * centerDist c1 c2 =
      (c1.pos.x - c2.pos.x) * (c1.pos.x - c2.pos.x) +
      (c1.pos.y - c2.pos.y) * (c1.pos.y - c2.pos.y) := Real.mul_self_sqrt hS0
  have he := checkCircleCollision_eq c1 c2 hcol
  have hvx : (checkCircleCollision c1 c2).vel.x =
      (outwardNormal c1 c2).x *
        max 14 (Real.sqrt (c2.vel.x * c2.vel.x + c2.vel.y * c2.vel.y) * 1.1) +
      c1.vel.x * 0.5 := by
    rw [he]
    unfold outwardNormal
    show -((c1.pos.x - c2.pos.x) / centerDist c1 c2) * _ + c1.vel.x * 0.5 =
      (c2.pos.x - c1.pos.x) / centerDist c1 c2 * _ + c1.vel.x * 0.5
    ring
  have hvy : (checkCircleCollision c1 c2).vel.y =
      (outwardNormal c1 c2).y *
        max 14 (Real.sqrt (c2.vel.x * c2.vel.x + c2.vel.y * c2.vel.y) * 1.1) +
      c1.vel.y * 0.5 - 4 := by
    rw [he]
    unfold outwardNormal
    show -((c1.pos.y - c2.pos.y) / centerDist c1 c2) * _ + c1.vel.y * 0.5 - 4 =
      (c2.pos.y - c1.pos.y) / centerDist c1 c2 * _ + c1.vel.y * 0.5 - 4
    ring
  refine ⟨le_max_left _ _, hvx, hvy, ?_⟩
  rw [hvx, hvy]
  unfold dotV outwardNormal
  dsimp only
  have key : ∀ M : ℝ,
      (c2.pos.x - c1.pos.x) / centerDist c1 c2 *
          ((c2.pos.x - c1.pos.x) / centerDist c1 c2 * M + c1.vel.x * 0.5 - c1.vel.x * 0.5) +
        (c2.pos.y - c1.pos.y) / centerDist c1 c2 *
          ((c2.pos.y - c1.pos.y) / centerDist c1 c2 * M + c1.vel.y * 0.5 - 4 -
            (c1.vel.y * 0.5 - 4)) = M := by
    intro M
    field_simp
    linear_combination (-M) * hdd
  exact key _

/-- Witness for the amended C4 at a slow player (velocity `(6, 0)`) and stationary
ball: the collision hypotheses hold and the pop-force component meets the floor. -/
theorem C4_amended_pop_force_floor_witness :
    collisionGuard p4w b4 ∧ centerDist p4w b4 ≠ 0 ∧
    (14 ≤ max 14 (Real.sqrt (b4.vel.x * b4.vel.x + b4.vel.y * b4.vel.y) * 1.1) ∧
     dotV (outwardNormal p4w b4)
       ⟨(checkCircleCollision p4w b4).vel.x - p4w.vel.x * 0.5,
        (checkCircleCollision p4w b4).vel.y - (p4w.vel.y * 0.5 - 4)⟩ =
       max 14 (Real.sqrt (b4.vel.x * b4.vel.x + b4.vel.y * b4.vel.y) * 1.1)) := by
  have hd : centerDist p4w b4 = 47 := by
    unfold centerDist p4w b4
    rw [show (((400:ℝ) - 447) * ((400:ℝ) - 447) + ((300:ℝ) - 300) * ((300:ℝ) - 300))
        = 47 * 47 by norm_num]
    exact Real.sqrt_mul_self (by norm_num)
  have hcol : collisionGuard p4w b4 := by
    unfold collisionGuard
    rw [hd]; norm_num [p4w, b4, PLAYER_RADIUS, BALL_RADIUS]
  have h0 : centerDist p4w b4 ≠ 0 := by rw [hd]; norm_num
  exact ⟨hcol, h0, (C4_amended_pop_force_floor p4w b4 hcol h0).1,
    (C4_amended_pop_force_floor p4w b4 hcol h0).2.2.2⟩

/-- The CPU AI step never touches the player entity. -/
theorem cpuAIStep_player (w : World) : (cpuAIStep w).player = w.player := by
  unfold cpuAIStep
  dsimp only
  split <;> rfl

/-- The CPU AI step never moves the cpu body, only its velocity and flag. -/
theorem cpuAIStep_cpu_pos (w : World) : (cpuAIStep w).cpu.pos = w.cpu.pos := by
  unfold cpuAIStep
  dsimp only
  split <;> rfl

/-- The CPU AI step never changes the cpu body's radius. -/
theorem cpuAIStep_cpu_radius (w : World) : (cpuAIStep w).cpu.radius = w.cpu.radius := by
  unfold cpuAIStep
  dsimp only
  split <;> rfl

/-- Input handling never changes the player's radius. -/
theorem playerMove_radius (k : Keys) (p : Entity) : (playerMove k p).radius = p.radius := by
  obtain ⟨l, r, u⟩ := k
  obtain ⟨pos, vel, rad, col, og⟩ := p
  cases l <;> cases r <;> cases u <;> cases og <;> rfl

/-- After the left body's physics pass its x position is inside its own half:
between the left wall margin and the net barrier. -/
theorem bodyPhysics_true_bounds (p : Entity) (hr : p.radius = PLAYER_RADIUS) :
    PLAYER_RADIUS ≤ (bodyPhysics true p).pos.x ∧
    (bodyPhysics true p).pos.x ≤ NET_X - PLAYER_RADIUS := by
  obtain ⟨pos, vel, rad, col, og⟩ := p
  dsimp only at hr
  subst hr
  unfold bodyPhysics netClampPlayer wallClamp floorClamp integrateBody
  dsimp only
  norm_num [PLAYER_RADIUS, NET_X, CANVAS_WIDTH, CANVAS_HEIGHT]
  split_ifs <;> constructor <;> dsimp only at * <;> linarith

/-- After the right body's physics pass its x position is inside its own half:
between the net barrier and the right wall margin. -/
theorem bodyPhysics_false_bounds (p : Entity) (hr : p.radius = PLAYER_RADIUS) :
    NET_X + PLAYER_RADIUS ≤ (bodyPhysics false p).pos.x ∧
    (bodyPhysics false p).pos.x ≤ CANVAS_WIDTH - PLAYER_RADIUS := by
  obtain ⟨pos, vel, rad, col, og⟩ := p
  dsimp only at hr
  subst hr
  unfold bodyPhysics netClampCpu wallClamp floorClamp integrateBody
  dsimp only
  norm_num [PLAYER_RADIUS, NET_X, CANVAS_WIDTH, CANVAS_HEIGHT]
  split_ifs <;> constructor <;> dsimp only at * <;> linarith

/-- The player entity after the pre-scoring pipeline is its physics pass over the
input-handled player. -/
theorem afterCollisions_player (k : Keys) (w : World) :
    (afterCollisions k w).player = bodyPhysics true (playerMove k w.player) := by
  unfold afterCollisions collideStage ballStage bodiesStage
  dsimp only
  rw [cpuAIStep_player]

/-- The cpu entity after the pre-scoring pipeline is its physics pass over the
AI-handled cpu. -/
theorem afterCollisions_cpu (k : Keys) (w : World) :
    (afterCollisions k w).cpu =
      bodyPhysics false ((cpuAIStep { w with player := playerMove k w.player }).cpu) := by
  unfold afterCollisions collideStage ballStage bodiesStage
  dsimp only

/-- Amended C5: after collision resolution completes on a PLAYING tick, the
player's horizontal position lies within `[radius, netX - radius]` and the
opponent's within `[netX + radius, courtWidth - radius]` (hence both lie within
`[radius, courtWidth - radius]`); the BALL's horizontal position, however, is not
so bounded (see the counterexample). -/
theorem C5_amended_body_bounds (k : Keys) (w : World)
    (hp : w.player.radius = PLAYER_RADIUS) (hc : w.cpu.radius = PLAYER_RADIUS) :
    PLAYER_RADIUS ≤ (afterCollisions k w).player.pos.x ∧
    (afterCollisions k w).player.pos.x ≤ NET_X - PLAYER_RADIUS ∧
    (afterCollisions k w).player.pos.x ≤ CANVAS_WIDTH - PLAYER_RADIUS ∧
    PLAYER_RADIUS ≤ (afterCollisions k w).cpu.pos.x ∧
    NET_X + PLAYER_RADIUS ≤ (afterCollisions k w).cpu.pos.x ∧
    (afterCollisions k w).cpu.pos.x ≤ CANVAS_WIDTH - PLAYER_RADIUS := by
  have hpr : (playerMove k w.player).radius = PLAYER_RADIUS := by
    rw [playerMove_radius]; exact hp
  have hcr : ((cpuAIStep { w with player := playerMove k w.player }).cpu).radius =
      PLAYER_RADIUS := by
    rw [cpuAIStep_cpu_radius]; exact hc
  have hP := bodyPhysics_true_bounds (playerMove k w.player) hpr
  have hC := bodyPhysics_false_bounds
    ((cpuAIStep { w with player := playerMove k w.player }).cpu) hcr
  rw [afterCollisions_player, afterCollisions_cpu]
  refine ⟨hP.1, hP.2, ?_, ?_, hC.1, hC.2⟩
  · have : NET_X - PLAYER_RADIUS ≤ CANVAS_WIDTH - PLAYER_RADIUS := by
      norm_num [NET_X, CANVAS_WIDTH]
    linarith [hP.2]
  · have : PLAYER_RADIUS ≤ NET_X + PLAYER_RADIUS := by
      norm_num [NET_X, CANVAS_WIDTH, PLAYER_RADIUS]
    linarith [hC.1]

/-- Witness for the amended C5 at the initial world with no key held. -/
theorem C5_amended_body_bounds_witness :
    initialWorld.player.radius = PLAYER_RADIUS ∧ initialWorld.cpu.radius = PLAYER_RADIUS ∧
    (PLAYER_RADIUS ≤ (afterCollisions k0 initialWorld).player.pos.x ∧
     (afterCollisions k0 initialWorld).player.pos.x ≤ NET_X - PLAYER_RADIUS ∧
     (afterCollisions k0 initialWorld).player.pos.x ≤ CANVAS_WIDTH - PLAYER_RADIUS ∧
     PLAYER_RADIUS ≤ (afterCollisions k0 initialWorld).cpu.pos.x ∧
     NET_X + PLAYER_RADIUS ≤ (afterCollisions k0 initialWorld).cpu.pos.x ∧
     (afterCollisions k0 initialWorld).cpu.pos.x ≤ CANVAS_WIDTH - PLAYER_RADIUS) :=
  ⟨rfl, rfl, C5_amended_body_bounds k0 initialWorld rfl rfl⟩

/-- On the C5 tick the CPU AI is a no-op: the ball is far on the left, the cpu
sits at its home spot. -/
theorem w5_ai : cpuAIStep w5 = w5 := by
  have hmv : cpuMoveVelX w5.ball.pos.x w5.cpu.pos.x = 0 := by
    show cpuMoveVelX (12:ℝ) 650 = 0
    unfold cpuMoveVelX cpuTargetX
    norm_num [NET_X, CANVAS_WIDTH]
  have hjd : cpuJumpDecision w5.ball.pos w5.cpu.pos.x w5.cpu.onGround = false := by
    show cpuJumpDecision (⟨12, 378.602⟩ : Vec2) 650 true = false
    unfold cpuJumpDecision
    rw [if_neg]
    intro hc
    have h1 : (12:ℝ) > NET_X := hc.1
    norm_num [NET_X, CANVAS_WIDTH] at h1
  unfold cpuAIStep
  dsimp only
  rw [hmv, hjd]
  rfl

/-- On the C5 tick both bodies stay put: grounded, no horizontal velocity. -/
theorem w5_bodies : bodiesStage w5 = w5 := by
  have hp : bodyPhysics true plE = plE := by
    unfold bodyPhysics netClampPlayer wallClamp floorClamp integrateBody plE
    norm_num [GRAVITY, PLAYER_RADIUS, CANVAS_WIDTH, CANVAS_HEIGHT, NET_X,
      Entity.mk.injEq, Vec2.mk.injEq]
  have hc : bodyPhysics false cpE = cpE := by
    unfold bodyPhysics netClampCpu wallClamp floorClamp integrateBody cpE
    norm_num [GRAVITY, PLAYER_RADIUS, CANVAS_WIDTH, CANVAS_HEIGHT, NET_X,
      Entity.mk.injEq, Vec2.mk.injEq]
  unfold bodiesStage
  show ({ w5 with player := bodyPhysics true plE, cpu := bodyPhysics false cpE } : World) = w5
  rw [hp, hc]
  rfl

/-- Ball integration on the C5 tick: gravity and damping land the ball at
`(12, 379)` with velocity `(0, 0.398)`. -/
theorem w5_integrate : integrateBall blE = ballA := by
  unfold integrateBall blE ballA
  norm_num [GRAVITY, Entity.mk.injEq, Vec2.mk.injEq]

/-- No wall or ceiling bounce on the C5 tick. -/
theorem w5_wall : ballWallBounce ballA = ballA := by
  unfold ballWallBounce ballA
  norm_num [BALL_RADIUS, CANVAS_WIDTH]

/-- No net collision on the C5 tick: the ball is 388 units left of the net. -/
theorem w5_net : ballNetCollision ballA = ballA := by
  have hs : ¬ (Real.sqrt (((12:ℝ) - NET_X) ^ 2 +
      ((379:ℝ) - (CANVAS_HEIGHT - NET_HEIGHT)) ^ 2) < BALL_RADIUS + 5) := by
    rw [show (((12:ℝ) - NET_X) ^ 2 + ((379:ℝ) - (CANVAS_HEIGHT - NET_HEIGHT)) ^ 2)
        = 156785 by norm_num [NET_X, CANVAS_WIDTH, CANVAS_HEIGHT, NET_HEIGHT]]
    exact not_lt.mpr (le_sqrt_eval (by norm_num [BALL_RADIUS]) (by norm_num [BALL_RADIUS]))
  have habs : |(12:ℝ) - NET_X| = 388 := by
    rw [show ((12:ℝ) - NET_X) = -388 by norm_num [NET_X, CANVAS_WIDTH]]
    rw [abs_neg]
    exact abs_of_nonneg (by norm_num)
  unfold ballNetCollision netTopY ballA
  dsimp only
  rw [if_neg hs]
  norm_num [habs, CANVAS_HEIGHT, NET_HEIGHT, BALL_RADIUS]

/-- The player-ball collision on the C5 tick: distance 35 against radius sum 52,
so the ball is kicked and pushed out to x = -1.6. -/
theorem w5_hit : checkCircleCollision plE ballA = ballB := by
  have hd : centerDist plE ballA = 35 := by
    unfold centerDist plE ballA
    dsimp only
    rw [show (((40:ℝ) - 12) * ((40:ℝ) - 12) + ((400:ℝ) - 379) * ((400:ℝ) - 379))
        = 35 * 35 by norm_num]
    exact Real.sqrt_mul_self (by norm_num)
  have hcol : collisionGuard plE ballA := by
    unfold collisionGuard
    rw [hd]
    norm_num [plE, ballA, PLAYER_RADIUS, BALL_RADIUS]
  have he := checkCircleCollision_eq plE ballA hcol
  rw [hd] at he
  have hsp : Real.sqrt (ballA.vel.x * ballA.vel.x + ballA.vel.y * ballA.vel.y) = 0.398 := by
    show Real.sqrt ((0:ℝ) * 0 + 0.398 * 0.398) = 0.398
    rw [show ((0:ℝ) * 0 + 0.398 * 0.398) = 0.398 * 0.398 by norm_num]
    exact Real.sqrt_mul_self (by norm_num)
  rw [hsp] at he
  rw [show max (14:ℝ) (0.398 * 1.1) = 14 from max_eq_left (by norm_num)] at he
  rw [he]
  unfold plE ballA ballB
  norm_num [PLAYER_RADIUS, BALL_RADIUS, Entity.mk.injEq, Vec2.mk.injEq]

/-- The cpu-ball collision on the C5 tick misses: the ball is far away. -/
theorem w5_miss : checkCircleCollision cpE ballB = ballB := by
  apply checkCircleCollision_miss
  unfold collisionGuard
  have hge : (52:ℝ) ≤ centerDist cpE ballB := by
    unfold centerDist cpE ballB
    dsimp only
    exact le_sqrt_eval (by norm_num) (by norm_num)
  have hr : cpE.radius + ballB.radius = 52 := by
    norm_num [cpE, ballB, PLAYER_RADIUS, BALL_RADIUS]
  rw [hr]
  exact not_lt.mpr hge

/-- The collision stage of the C5 tick pushes the ball out of bounds. -/
theorem w5_collide : collideStage { w5 with ball := ballA } = { w5 with ball := ballB } := by
  unfold collideStage
  dsimp only [w5]
  rw [w5_hit, w5_miss]

/-- Claim C5 counterexample: a PLAYING tick after which the BALL's horizontal
position is -1.6, outside `[radius, courtWidth - radius] = [12, 788]`: the
player-ball separation step pushes the ball through the left wall, and neither
the rest of collision resolution nor the scoring block restores it. -/
theorem C5_ball_pushed_out_of_bounds :
    w5.gameState = GameState.PLAYING ∧
    (afterCollisions k0 w5).ball.radius = BALL_RADIUS ∧
    (afterCollisions k0 w5).ball.pos.x = -1.6 ∧
    (afterCollisions k0 w5).ball.pos.x < (afterCollisions k0 w5).ball.radius ∧
    (update k0 w5).ball.pos.x = -1.6 := by
  have hAC : afterCollisions k0 w5 = { w5 with ball := ballB } := by
    unfold afterCollisions
    show collideStage (ballStage (bodiesStage (cpuAIStep w5))) = _
    rw [w5_ai, w5_bodies]
    have hb : ballStage w5 = { w5 with ball := ballA } := by
      unfold ballStage
      show ({ w5 with ball := ballNetCollision (ballWallBounce (integrateBall blE)) } : World) = _
      rw [w5_integrate, w5_wall, w5_net]
    rw [hb, w5_collide]
  have hsc : scoringStep { w5 with ball := ballB } = { w5 with ball := ballB } := by
    unfold scoringStep
    rw [if_neg]
    show ¬ ((368.8:ℝ) ≥ CANVAS_HEIGHT - BALL_RADIUS)
    norm_num [CANVAS_HEIGHT, BALL_RADIUS]
  have hU : update k0 w5 = { w5 with ball := ballB } := by
    unfold update
    rw [if_pos (show w5.gameState = GameState.PLAYING from rfl), hAC, hsc]
  refine ⟨rfl, ?_, ?_, ?_, ?_⟩
  · rw [hAC]
    rfl
  · rw [hAC]
    rfl
  · rw [hAC]
    show (-1.6:ℝ) < BALL_RADIUS
    norm_num [BALL_RADIUS]
  · rw [hU]
    rfl

end Volleyball
